import Mathlib

/-!
# Shallow embedding of the dataset risk-analysis engine

This file embeds the core of `backend/app/services/ml_service.py`
(class `MLService`) in Lean 4 and proves/refutes the frozen claims
about it.

Modelling conventions:

* A table (`pandas.DataFrame`) is a list of named columns; a cell is
  `Option ℚ` with `none` standing for a missing value (NaN).  Exact
  rational/real arithmetic idealises the source's floating point; every
  numerical verdict proved below is robust to rounding (checked at each
  counterexample).
* `hash()` of a Python string is process-stable but unspecified; it is a
  parameter `pyHash : String → ℤ`.  Likewise `str(df.values.tobytes())`
  is a parameter `serialize : Table → String`.
* `np.random.seed(s)` followed by a sequence of standard-normal draws is
  modelled by a parameter `sample : ℕ → ℕ → ℝ`: `sample s j` is the
  `j`-th draw after seeding with `s`.  `np.random.normal(loc, scale)`
  is `loc + scale * z` with `z` the next draw, which is exact for
  numpy (in particular `scale = 0` gives exactly `loc`).
* `pandas` sample statistics use `ddof = 1`; the standard deviation of a
  single observation is NaN, modelled where it matters by `Option`.
-/

namespace MLService

/-! ## Table model -/

/-- A cell of a data frame: `none` models a missing value (NaN). -/
abbrev Cell := Option ℚ

/-- A column of a data frame. -/
abbrev Column := List Cell

/-- A data frame: ordered named columns.  (All columns of one table are
assumed to have the same length, as in `pandas`.) -/
abbrev Table := List (String × Column)

/-- `len(df)`: the number of rows, read off the first column. -/
def numRows : Table → ℕ
  | [] => 0
  | (_, c) :: _ => c.length

/-- `df[name]` as an optional column (first column with that name). -/
def lookupCol (t : Table) (name : String) : Option Column :=
  (t.find? (fun c => c.1 == name)).map (·.2)

/-- `series.dropna()`: the non-missing values of a column, in order. -/
def dropna (c : Column) : List ℚ :=
  c.filterMap id

/-- `df[[c1, c2]].dropna()`: rows where both columns are non-missing,
as (c1 value, c2 value) pairs in row order. -/
def pairedPoints (c₁ c₂ : Column) : List (ℚ × ℚ) :=
  (c₁.zip c₂).filterMap (fun p =>
    match p with
    | (some x, some y) => some (x, y)
    | _ => none)

/-! ## Keyword matching on column names

`detect_schema` classifies columns by case-insensitive substring match
of fixed keyword lists against the column name. -/

/-- Whether `needle` is a prefix of `hay` (character lists). -/
def startsWithSeq : List Char → List Char → Bool
  | [], _ => true
  | _ :: _, [] => false
  | a :: as, b :: bs => a == b && startsWithSeq as bs

/-- Whether `needle` occurs contiguously inside `hay`. -/
def containsSeq (needle : List Char) : List Char → Bool
  | [] => startsWithSeq needle []
  | c :: rest => startsWithSeq needle (c :: rest) || containsSeq needle rest

/-- Python's `str.lower()` on one character, restricted to ASCII (all
column names and keywords in this development are ASCII; `String.toLower`
itself is not kernel-reducible). -/
def asciiLower (c : Char) : Char :=
  if 65 ≤ c.toNat ∧ c.toNat ≤ 90 then Char.ofNat (c.toNat + 32) else c

/-- `keyword in col.lower()` for one keyword (keywords are lower-case). -/
def nameContainsKw (name kw : String) : Bool :=
  containsSeq kw.toList (name.toList.map asciiLower)

/-- `any(keyword in col_lower for keyword in kws)`. -/
def nameContainsAny (name : String) (kws : List String) : Bool :=
  kws.any (fun kw => nameContainsKw name kw)

/-- Datetime-name keywords (line 46 of the source). -/
def dtKeywords : List String := [("time"), ("date"), ("timestamp")]

/-- Candidate-feature keywords (line 64). -/
def featureKeywords : List String :=
  [("level"), ("height"), ("speed"), ("pressure"), ("temperature"), ("humidity")]

/-- Candidate-target keywords (line 68). -/
def targetKeywords : List String :=
  [("risk"), ("threat"), ("danger"), ("alert"), ("score")]

/-! ## Basic statistics (pandas semantics, exact arithmetic) -/

/-- `series.mean()` over already-dropna'd values (division by zero
yields Lean's junk value `0`; guarded at every use, as in the source). -/
def sampleMean (xs : List ℚ) : ℚ :=
  xs.sum / (xs.length : ℚ)

/-- `series.var()` with `ddof = 1` (the pandas default):
`Σ (x − mean)² / (n − 1)`.  For `n ≤ 1` the source's value is NaN;
Lean's division by zero gives `0` here and each use either guards on
`n` or is checked against the NaN data flow in a comment. -/
def sampleVar (xs : List ℚ) : ℚ :=
  ((xs.map (fun x => (x - sampleMean xs) * (x - sampleMean xs))).sum) / ((xs.length : ℚ) - 1)

/-- `series.min()` (junk `0` on an empty list; guarded at use sites). -/
def listMin : List ℚ → ℚ
  | [] => 0
  | x :: xs => xs.foldl min x

/-- `series.max()` (junk `0` on an empty list; guarded at use sites). -/
def listMax : List ℚ → ℚ
  | [] => 0
  | x :: xs => xs.foldl max x

/-- `series.quantile(p)` with pandas' default linear interpolation:
position `p * (n − 1)` into the sorted values, interpolating between
the two neighbouring order statistics. -/
def quantileQ (xs : List ℚ) (p : ℚ) : ℚ :=
  if xs.length = 0 then 0
  else
    let s := List.insertionSort (· ≤ ·) xs
    let pos : ℚ := p * ((xs.length : ℚ) - 1)
    let lo : ℕ := (Int.toNat ⌊pos⌋)
    let frac : ℚ := pos - (⌊pos⌋ : ℚ)
    let a := s.getD lo 0
    let b := s.getD (min (lo + 1) (xs.length - 1)) 0
    a + frac * (b - a)

/-! ## `_detect_outliers_iqr` (source lines 322–335) -/

/-- `_detect_outliers_iqr(data)`: `False` outright for fewer than 4
values, otherwise the 1.5×IQR rule on the quartiles. -/
def detectOutliersIQR (data : List ℚ) : Bool :=
  if data.length < 4 then false
  else
    let q1 := quantileQ data (1/4)
    let q3 := quantileQ data (3/4)
    let iqr := q3 - q1
    let lowerBound := q1 - 3/2 * iqr
    let upperBound := q3 + 3/2 * iqr
    data.any (fun x => x < lowerBound || upperBound < x)

/-- The profiler's `has_outliers` entry for a column
(`_generate_statistical_insights`, line 294): the IQR detector applied
to the column's non-missing values. -/
def hasOutliersFor (c : Column) : Bool :=
  detectOutliersIQR (dropna c)

/-! ## `detect_anomalies` (source lines 1007–1022)

The isolation forest itself (`sklearn.IsolationForest.fit_predict`,
`random_state=42`) is an external library call; it is a parameter
`fitPredict` that may fail (`Except.error` models a raised exception,
e.g. on NaN-containing input).  Everything inside the source's `try`
is modelled inside the pipeline; the `except` branch returns the
all-false vector. -/

/-- `df[features].fillna(df[features].mean())` for one column: missing
cells are replaced by the column mean.  A column whose values are all
missing has NaN mean, and `fillna(NaN)` leaves the column unchanged —
modelled by returning the column as is. -/
def imputeCol (c : Column) : Column :=
  let present := dropna c
  if present.isEmpty then c
  else c.map (fun cell => some (cell.getD (sampleMean present)))

/-- `df[features]` with mean imputation.  A missing feature column is a
`KeyError` (an exception caught by the caller's `except`). -/
def selectFeatures (t : Table) (features : List String) :
    Except String (List Column) :=
  features.mapM (fun f =>
    match lookupCol t f with
    | some c => Except.ok (imputeCol c)
    | none => Except.error (("KeyError: ") ++ f))

/-- The body of `detect_anomalies` up to the sklearn call. -/
def anomalyPipeline (fitPredict : List Column → Except String (List Bool))
    (t : Table) (features : List String) : Except String (List Bool) := do
  let x ← selectFeatures t features
  fitPredict x

/-- `detect_anomalies(df, features)`: any exception anywhere in the
body ends in the `except` branch, which returns
`np.zeros(len(df), dtype=bool)`. -/
def detectAnomalies (fitPredict : List Column → Except String (List Bool))
    (t : Table) (features : List String) : List Bool :=
  match anomalyPipeline fitPredict t features with
  | Except.ok labels => labels
  | Except.error _ => List.replicate (numRows t) false

/-! ## `detect_schema` (source lines 30–78) and the synthetic target

All cells of the model are `Option ℚ`, so the numeric/categorical split
of the source collapses: a column whose name matches a datetime keyword
goes to `datetime_columns`, every other column to `numeric_columns`
(the source's `categorical` branch only receives object columns that
fail numeric coercion, which this numeric-cell model does not contain).
Datetime parsing (`pd.to_datetime`) is the identity on the model:
timestamps are stored as rational nanoseconds since the epoch, which is
exactly the value `pd.to_numeric` later extracts from them. -/

structure Schema where
  columns : List String
  numericColumns : List String
  datetimeColumns : List String
  potentialFeatures : List String
  potentialTarget : Option String
deriving DecidableEq

/-- One iteration of the `for col in df.columns` loop of
`detect_schema`: datetime/numeric classification, then the independent
feature and target keyword checks (a later target match overwrites an
earlier one). -/
def schemaStep (s : Schema) (name : String) : Schema :=
  let s1 :=
    if nameContainsAny name dtKeywords then
      { s with datetimeColumns := s.datetimeColumns ++ [name] }
    else
      { s with numericColumns := s.numericColumns ++ [name] }
  let s2 :=
    if nameContainsAny name featureKeywords then
      { s1 with potentialFeatures := s1.potentialFeatures ++ [name] }
    else s1
  if nameContainsAny name targetKeywords then
    { s2 with potentialTarget := some name }
  else s2

/-- The deterministic weight of a feature in
`_create_synthetic_risk_score` (lines 92–94):
`0.1 + (hash(feature) % 1000) / 1000 * 0.8`. -/
def featureWeight (pyHash : String → ℤ) (name : String) : ℚ :=
  1/10 + (((pyHash name) % 1000 : ℤ) : ℚ) / 1000 * (8/10)

/-- `_create_synthetic_risk_score(df, features)` (lines 80–109): a
weighted sum of min-max-normalised features, itself min-max normalised.
A feature column that is absent, empty, all-missing (NaN mean, NaN
std) or of zero variance contributes nothing; for a single row the
sample std is NaN, and `NaN > 0` is false, so it also contributes
nothing — hence the `2 ≤ length` guard.  The `np.random.seed` call in
the source (line 84) is dead: no random draw follows it. -/
def createSyntheticRiskScore (pyHash : String → ℤ) (t : Table)
    (features : List String) : List ℚ :=
  let contrib (acc : List ℚ) (f : String) : List ℚ :=
    match lookupCol t f with
    | none => acc
    | some col =>
      let present := dropna col
      if present.isEmpty then acc
      else
        let filled : List ℚ := col.map (fun cell => cell.getD (sampleMean present))
        if 2 ≤ filled.length ∧ 0 < sampleVar filled then
          let mn := listMin filled
          let mx := listMax filled
          acc.zipWith (fun a x => a + (x - mn) / (mx - mn) * featureWeight pyHash f) filled
        else acc
  let risk := features.foldl contrib (List.replicate (numRows t) 0)
  if listMin risk < listMax risk then
    risk.map (fun x => (x - listMin risk) / (listMax risk - listMin risk))
  else risk

/-- `detect_schema(df)` (lines 30–78).  The source mutates `df` in
place (datetime/numeric coercion — identity here — and possibly a new
synthetic column); the model returns the resulting table alongside the
schema.  When no target keyword matches, the target is named
`synthetic_risk_score`, but the column itself is only materialised when
at least one candidate feature exists (line 75). -/
def detectSchema (pyHash : String → ℤ) (t : Table) : Table × Schema :=
  let init : Schema :=
    { columns := t.map (·.1)
      numericColumns := []
      datetimeColumns := []
      potentialFeatures := []
      potentialTarget := none }
  let s := t.foldl (fun acc c => schemaStep acc c.1) init
  match s.potentialTarget with
  | some _ => (t, s)
  | none =>
    let s' := { s with potentialTarget := some (("synthetic_risk_score")) }
    if s.potentialFeatures.isEmpty then (t, s')
    else
      (t ++ [((("synthetic_risk_score")),
              (createSyntheticRiskScore pyHash t s.potentialFeatures).map some)],
       s')

/-! ## `_assess_risk_patterns` (source lines 365–532)

The risk-factor correlation and geographic-cluster sections (lines
436–495) are not modelled: no frozen claim depends on them.  The
`risk_distribution` / `critical_thresholds` report entries round to 1
and 3 decimals for display; the unrounded values used for
classification are modelled. -/

inductive RiskLevel
  | LOW
  | MEDIUM
  | HIGH
  | CRITICAL
deriving DecidableEq

/-- `series.std()` (ddof = 1): NaN (`none`) for fewer than two values.
The variance is a nonnegative rational; the std is its real square
root. -/
noncomputable def pandasStd (xs : List ℚ) : Option ℝ :=
  if 2 ≤ xs.length then some (Real.sqrt ((sampleVar xs : ℚ) : ℝ)) else none

/-- The dynamic thresholds of lines 390–392:
`low = max(0, mean − std)`, `high = min(1, mean + std)`,
`critical = min(1, mean + 2*std)`.  For a single value the std is NaN;
Python's `max(0, NaN) = 0` and `min(1, NaN) = 1` (the comparison with
NaN is false, so the first argument is kept), giving `(0, 1, 1)`. -/
noncomputable def riskThresholds (xs : List ℚ) : ℝ × ℝ × ℝ :=
  let μ : ℝ := ((sampleMean xs : ℚ) : ℝ)
  match pandasStd xs with
  | some σ => (max 0 (μ - σ), min 1 (μ + σ), min 1 (μ + 2 * σ))
  | none => (0, 1, 1)

/-- `len(data[data > th])`. -/
noncomputable def countGT (th : ℝ) : List ℚ → ℕ
  | [] => 0
  | x :: xs => (if th < (x : ℝ) then 1 else 0) + countGT th xs

/-- `len(data[data <= th])`. -/
noncomputable def countLE (th : ℝ) : List ℚ → ℕ
  | [] => 0
  | x :: xs => (if (x : ℝ) ≤ th then 1 else 0) + countLE th xs

/-- `len(data[(data > lo) & (data <= hi)])`. -/
noncomputable def countBetween (lo hi : ℝ) : List ℚ → ℕ
  | [] => 0
  | x :: xs => (if lo < (x : ℝ) ∧ (x : ℝ) ≤ hi then 1 else 0) + countBetween lo hi xs

/-- Lines 406–417: the overall level from the high/critical
percentages, first match wins. -/
noncomputable def overallLevelOf (data : List ℚ) (hi crit : ℝ) : RiskLevel :=
  let total : ℝ := (data.length : ℝ)
  let highPct : ℝ := (countGT hi data : ℝ) / total * 100
  let criticalPct : ℝ := (countGT crit data : ℝ) / total * 100
  if 15 < criticalPct then RiskLevel.CRITICAL
  else if 25 < highPct then RiskLevel.HIGH
  else if 10 < highPct then RiskLevel.MEDIUM
  else RiskLevel.LOW

/-- Nanoseconds per hour, i.e. 3600 × 10⁹ (`pd.to_numeric` of a
timestamp counts nanoseconds since the epoch). -/
def nsPerHour : ℚ := 3600000000000

/-- Nanoseconds per day, i.e. 86400 × 10⁹. -/
def nsPerDay : ℚ := 86400000000000

/-- `(time_data.max() − time_data.min()).days` (timedelta truncation =
floor for the nonnegative spans produced by max − min). -/
def spanDays (ts : List ℚ) : ℤ :=
  ⌊(listMax ts - listMin ts) / nsPerDay⌋

/-- The per-bucket mean risks (lines 508–517): group the paired
(time, target) rows by day (`dt.date`) when the full time column spans
more than 7 days, else by hour (`dt.floor('H')`); `groupby` returns the
buckets sorted by key.  The bucket key is the floored multiple of the
grouping unit. -/
def bucketMeans (tcol col : Column) : List (ℤ × ℚ) :=
  let pairs := pairedPoints tcol col
  let unit := if 7 < spanDays (dropna tcol) then nsPerDay else nsPerHour
  let keys := ((pairs.map (fun p => ⌊p.1 / unit⌋)).dedup).insertionSort (· ≤ ·)
  keys.map (fun k =>
    (k, sampleMean (pairs.filterMap
      (fun p => if ⌊p.1 / unit⌋ = k then some p.2 else none))))

/-- `time_risk_avg[time_risk_avg > high_threshold]` (line 520): keep
the buckets whose mean risk exceeds the threshold, preserving order. -/
noncomputable def keepQualifying (hi : ℝ) : List (ℤ × ℚ) → List (ℤ × ℚ)
  | [] => []
  | kv :: rest =>
    if hi < (kv.2 : ℝ) then kv :: keepQualifying hi rest
    else keepQualifying hi rest

/-- The temporal-risk block (lines 497–530): requires a detected
datetime column present in the table, a nonempty time column, and
strictly more than 10 rows where both time and target are present;
then reports `high_risk_times.head(5)` — the first five qualifying
buckets in bucket-key (chronological) order.  Each report entry also
carries a HIGH/MEDIUM label and a 3-decimal rounding, not modelled. -/
noncomputable def temporalFor (t : Table) (schema : Schema)
    (targetCol : Column) (hi : ℝ) : List (ℤ × ℚ) :=
  match schema.datetimeColumns.head? with
  | none => []
  | some dtName =>
    match lookupCol t dtName with
    | none => []
    | some tcol =>
      if (dropna tcol).isEmpty then []
      else if 10 < (pairedPoints tcol targetCol).length then
        (keepQualifying hi (bucketMeans tcol targetCol)).take 5
      else []

structure RiskPatterns where
  overallRiskLevel : RiskLevel
  lowRiskRecords : ℕ
  mediumRiskRecords : ℕ
  highRiskRecords : ℕ
  temporalRisks : List (ℤ × ℚ)

/-- The default `risk_analysis` dict (lines 367–377), returned
unchanged when there is no usable target column. -/
def defaultRiskPatterns : RiskPatterns :=
  { overallRiskLevel := RiskLevel.LOW
    lowRiskRecords := 0
    mediumRiskRecords := 0
    highRiskRecords := 0
    temporalRisks := [] }

/-- `_assess_risk_patterns(df, schema)` (lines 365–532), restricted to
the fields the claims are about. -/
noncomputable def assessRiskPatterns (t : Table) (schema : Schema) : RiskPatterns :=
  match schema.potentialTarget with
  | none => defaultRiskPatterns
  | some tc =>
    match lookupCol t tc with
    | none => defaultRiskPatterns
    | some col =>
      let data := dropna col
      if data.isEmpty then defaultRiskPatterns
      else
        let thr := riskThresholds data
        { overallRiskLevel := overallLevelOf data thr.2.1 thr.2.2
          lowRiskRecords := countLE thr.1 data
          mediumRiskRecords := countBetween thr.1 thr.2.1 data
          highRiskRecords := countGT thr.2.1 data
          temporalRisks := temporalFor t schema col thr.2.1 }

/-! ## Specification-side definitions

These follow the wording of the claims (not the source) and are
compared against the source-derived definitions above. -/

/-- C1, spec side: thresholds `low = max(0, μ−σ)`,
`high = min(1, μ+σ)`, `critical = min(1, μ+2σ)` from given `μ`, `σ`,
then the first-match policy: CRITICAL if strictly more than 15% of the
values exceed the critical threshold, HIGH if more than 25% exceed the
high threshold, MEDIUM if more than 10% exceed the high threshold,
else LOW. -/
noncomputable def specOverallRiskLevel (data : List ℚ) (μ σ : ℝ) : RiskLevel :=
  let high : ℝ := min 1 (μ + σ)
  let critical : ℝ := min 1 (μ + 2 * σ)
  let n : ℝ := (data.length : ℝ)
  if 15 < (countGT critical data : ℝ) / n * 100 then RiskLevel.CRITICAL
  else if 25 < (countGT high data : ℝ) / n * 100 then RiskLevel.HIGH
  else if 10 < (countGT high data : ℝ) / n * 100 then RiskLevel.MEDIUM
  else RiskLevel.LOW

/-- C6, spec side (the claim as stated): the buckets whose mean target
value exceeds the high threshold `min(1, μ+σ)`, ordered highest mean
first, capped at 5 — with no minimum on the number of paired rows. -/
noncomputable def specTemporalWindowsDesc (t : Table) (schema : Schema) : List (ℤ × ℚ) :=
  match schema.potentialTarget with
  | none => []
  | some tc =>
    match lookupCol t tc, schema.datetimeColumns.head?.bind (lookupCol t) with
    | some col, some tcol =>
      let data := dropna col
      let hi : ℝ := min 1 (((sampleMean data : ℚ) : ℝ) + Real.sqrt ((sampleVar data : ℚ) : ℝ))
      ((keepQualifying hi (bucketMeans tcol col)).insertionSort
        (fun a b => b.2 ≤ a.2)).take 5
    | _, _ => []

/-- C6, amended: the qualifying buckets in chronological (bucket-key)
order, truncated to the first five. -/
noncomputable def specChronoWindows (tcol col : Column) (hi : ℝ) : List (ℤ × ℚ) :=
  (keepQualifying hi (bucketMeans tcol col)).take 5

/-! ## `_analyze_trends` (source lines 534–654)

The moving-average / volatility block (≥ 50 points, lines 608–626),
seasonal-pattern flag and forecast indicators are not modelled: no
frozen claim depends on them.  Sorting by time (line 556) does not
change any of the sums, minima or maxima used below, so the pairing is
taken in row order. -/

/-- The per-column trend computation (lines 561–606): with strictly
more than 10 paired (time, value) points, a nondegenerate least-squares
denominator and strictly positive value and time ranges, returns
`(slope, normalized_slope)` where
`slope = (nΣxy − ΣxΣy) / (nΣx² − (Σx)²)` and
`normalized_slope = slope * time_range / value_range`. -/
def colTrend (tcol col : Column) : Option (ℚ × ℚ) :=
  let pairs := pairedPoints tcol col
  if 10 < pairs.length then
    let n : ℚ := (pairs.length : ℚ)
    let sumX := (pairs.map (·.1)).sum
    let sumY := (pairs.map (·.2)).sum
    let sumXY := (pairs.map (fun p => p.1 * p.2)).sum
    let sumX2 := (pairs.map (fun p => p.1 * p.1)).sum
    if n * sumX2 - sumX * sumX ≠ (0 : ℚ) then
      let slope := (n * sumXY - sumX * sumY) / (n * sumX2 - sumX * sumX)
      let valueRange := listMax (pairs.map (·.2)) - listMin (pairs.map (·.2))
      let timeRange := listMax (pairs.map (·.1)) - listMin (pairs.map (·.1))
      if 0 < valueRange ∧ 0 < timeRange then
        some (slope, slope * timeRange / valueRange)
      else none
    else none
  else none

/-- C7, spec side (the claim as stated): the same computation but
admitting columns with at least 10 paired points. -/
def specColTrend (tcol col : Column) : Option (ℚ × ℚ) :=
  let pairs := pairedPoints tcol col
  if 10 ≤ pairs.length then
    let n : ℚ := (pairs.length : ℚ)
    let sumX := (pairs.map (·.1)).sum
    let sumY := (pairs.map (·.2)).sum
    let sumXY := (pairs.map (fun p => p.1 * p.2)).sum
    let sumX2 := (pairs.map (fun p => p.1 * p.1)).sum
    if n * sumX2 - sumX * sumX ≠ (0 : ℚ) then
      let slope := (n * sumXY - sumX * sumY) / (n * sumX2 - sumX * sumX)
      let valueRange := listMax (pairs.map (·.2)) - listMin (pairs.map (·.2))
      let timeRange := listMax (pairs.map (·.1)) - listMin (pairs.map (·.1))
      if 0 < valueRange ∧ 0 < timeRange then
        some (slope, slope * timeRange / valueRange)
      else none
    else none
  else none

inductive TrendDirection
  | INCREASING
  | DECREASING
  | MIXED
  | STABLE
deriving DecidableEq

structure TrendResult where
  trendDirection : TrendDirection
  /-- `increasing_metrics` entries as (metric, strength); the source
  also stores `confidence = min(0.95, strength)`, not modelled. -/
  increasingMetrics : List (String × ℚ)
  /-- `decreasing_metrics` entries as (metric, |strength|). -/
  decreasingMetrics : List (String × ℚ)
  /-- `trend_strength` entries as (column, (slope, normalized slope));
  the redundant `trend_strength = abs(normalized_slope)` entry is not
  modelled. -/
  trendStrength : List (String × (ℚ × ℚ))
deriving DecidableEq

/-- The default trend dict (lines 536–544). -/
def defaultTrendResult : TrendResult :=
  { trendDirection := TrendDirection.STABLE
    increasingMetrics := []
    decreasingMetrics := []
    trendStrength := [] }

/-- `_analyze_trends(df, schema)` (lines 534–654): picks the first
detected datetime column present in the table; for each present
numeric column computes the trend; classifies `increasing` when the
normalized slope strictly exceeds 0.1 and `decreasing` when it is
strictly below −0.1; the overall direction is the majority rule of
lines 628–639. -/
def analyzeTrends (t : Table) (schema : Schema) : TrendResult :=
  match schema.datetimeColumns.find? (fun c => (lookupCol t c).isSome) with
  | none => defaultTrendResult
  | some dtName =>
    match lookupCol t dtName with
    | none => defaultTrendResult
    | some tcol =>
      let cols := schema.numericColumns.filter (fun c => (lookupCol t c).isSome)
      let trendOf : String → Option (ℚ × ℚ) := fun c =>
        (lookupCol t c).bind (fun cc => colTrend tcol cc)
      let incOf : String → Option ℚ := fun c =>
        (trendOf c).bind (fun p => if 1/10 < p.2 then some p.2 else none)
      let decOf : String → Option ℚ := fun c =>
        (trendOf c).bind (fun p => if p.2 < -(1/10) then some |p.2| else none)
      let strength := cols.filterMap (fun c => (trendOf c).map (fun p => (c, p)))
      let inc := cols.filterMap (fun c => (incOf c).map (fun y => (c, y)))
      let dec := cols.filterMap (fun c => (decOf c).map (fun y => (c, y)))
      let dir :=
        if dec.length < inc.length ∧ 0 < inc.length then TrendDirection.INCREASING
        else if inc.length < dec.length ∧ 0 < dec.length then TrendDirection.DECREASING
        else if 0 < inc.length ∨ 0 < dec.length then TrendDirection.MIXED
        else TrendDirection.STABLE
      { trendDirection := dir
        increasingMetrics := inc
        decreasingMetrics := dec
        trendStrength := strength }

/-! ## `_generate_predictions` (source lines 690–760)

Random draws: `np.random.seed(abs(data_hash) % 10000)` is followed by
exactly two `np.random.normal` calls per loop iteration (the predicted
value, then the confidence variation), so iteration `i` consumes draws
`2*i` and `2*i + 1` of the seeded stream. -/

structure ColStats where
  n : ℕ
  mean : ℚ
  tmin : ℚ
  tmax : ℚ
deriving DecidableEq

/-- `mean/min/max` of a column, skipping missing values (pandas
`skipna` default).  All fields are junk (`0`) for a column with no
non-missing value: the source there produces NaN statistics, a corner
excluded by hypothesis wherever these stats are consumed. -/
def colStats (c : Column) : ColStats :=
  { n := (dropna c).length
    mean := sampleMean (dropna c)
    tmin := listMin (dropna c)
    tmax := listMax (dropna c) }

/-- `series.std()` as a real number.  For `n = 1` the source's std is
NaN and `np.random.normal(loc, NaN) = NaN`, which the subsequent
`max(tmin, min(tmax, NaN))` clamp collapses to `tmax` (Python's
`min`/`max` keep their first argument when the comparison with NaN is
false); with a single value `tmin = tmax = mean`, which is exactly the
value this embedding produces via `sampleVar = 0` (Lean's `0/0 = 0`),
so the outcomes agree.  `n = 0` is excluded by hypothesis. -/
noncomputable def colStd (c : Column) : ℝ :=
  Real.sqrt ((sampleVar (dropna c) : ℚ) : ℝ)

/-- The numeric schema columns present in the table (line 698). -/
def presentNumericCols (t : Table) (schema : Schema) : List String :=
  schema.numericColumns.filter (fun c => (lookupCol t c).isSome)

/-- The keys of `base_stats` (lines 703–710): numeric schema columns
present in the table with a nonempty series. -/
def baseStatsKeys (t : Table) (schema : Schema) : List String :=
  schema.numericColumns.filter (fun c =>
    match lookupCol t c with
    | some col => !col.isEmpty
    | none => false)

/-- `target_col and target_col in base_stats` (line 724): the target
column, provided it has `base_stats` (column names are nonempty
strings, so Python truthiness is just presence). -/
def targetColumn (t : Table) (schema : Schema) : Option Column :=
  schema.potentialTarget.bind (fun tc =>
    if tc ∈ baseStatsKeys t schema then lookupCol t tc else none)

/-- The `time_horizons[min(i, len(time_horizons)-1)]` label of lines
717–721. -/
def horizonFor (i : ℕ) : String :=
  let hs := [toString ((i+1)*15) ++ (" minutes"),
             toString ((i+1)*30) ++ (" minutes"),
             toString (i+1) ++ (" hours"),
             toString ((i+1)*2) ++ (" hours"),
             toString ((i+1)*6) ++ (" hours"),
             toString ((i+1)*12) ++ (" hours")]
  hs.getD (min i 5) ("")

structure PredictionR where
  predictionId : String
  predictedValue : ℝ
  confidence : ℝ
  timeHorizon : String
  factorsConsidered : List String
  uncertaintyLower : ℝ
  uncertaintyUpper : ℝ

/-- `_generate_predictions(df, schema, data_hash)` (lines 690–760).
`prediction_type` and `method` are constant strings, not modelled. -/
noncomputable def generatePredictions (sample : ℕ → ℕ → ℝ) (t : Table)
    (schema : Schema) (h : ℤ) : List PredictionR :=
  let seedv := h.natAbs % 10000
  let cols := presentNumericCols t schema
  let numPredictions := min 24 (max 6 (numRows t / 50))
  (List.range numPredictions).map (fun i =>
    let z := sample seedv (2 * i)
    let zc := sample seedv (2 * i + 1)
    let predicted : ℝ :=
      match targetColumn t schema with
      | some col =>
        let st := colStats col
        max ((st.tmin : ℚ) : ℝ) (min ((st.tmax : ℚ) : ℝ)
          (((st.mean : ℚ) : ℝ) * (1 + (i : ℝ) * 0.02) + colStd col * 0.5 * z))
      | none =>
        max 0 (min 1 (0.3 + (i : ℝ) * 0.05 + 0.1 * z))
    let conf : ℝ :=
      max 0.6 (min 0.95 (0.7 + ((numRows t : ℝ) / 1000) * 0.2 + 0.05 * zc))
    { predictionId := ("pred_") ++ toString h ++ ("_") ++ toString (i + 1)
      predictedValue := predicted
      confidence := conf
      timeHorizon := horizonFor i
      factorsConsidered := cols.take 5
      uncertaintyLower := predicted * 0.85
      uncertaintyUpper := predicted * 1.15 })

/-! ## `analyze_dataset` (source lines 111–179)

`data_hash = hash(str(df.values.tobytes()) + dataset_id) % (2**31)`;
Python `%` with a positive modulus is nonnegative, matching `Int.emod`.
The result document is modelled by the fields the claims are about;
`data_quality_score`, `statistical_summary`, the full `risk_analysis`
report, `trend_analysis`, `anomalies`, `ml_predictions`, `insights`,
`alerts` and `recommendations` are assembled from the sub-analyses in
the same way and carry no claim.  The body is wrapped in
`try/except` in the source (lines 173–179: on an exception a minimal
dict with an `error` field is returned); every sub-analysis of the
modelled domain takes its guarded degraded branch instead of raising
(in particular on an empty table: `_calculate_data_quality` returns
0.0 early, the statistical/risk/trend/anomaly passes see no usable
columns and return their defaults, and `_generate_predictions` takes
its fallback branch), so the normal path always sets `error = none`. -/

/-- The deterministic content hash of line 117. -/
def dataHash (pyHash : String → ℤ) (serialize : Table → String)
    (t : Table) (datasetId : String) : ℤ :=
  (pyHash (serialize t ++ datasetId)) % (2 ^ 31)

structure AnalysisResult where
  datasetId : String
  analysisTimestamp : String
  error : Option String
  riskLevel : RiskLevel
  totalRecords : ℕ
  predictions : List PredictionR
  predictionsCount : ℕ
  analysisHash : String

/-- `analyze_dataset(df, schema, dataset_id)`.  `rng` is the ambient
global `np.random` state; line 118 (`np.random.seed(abs(h) % 10000)`)
overwrites it before any draw, and `_generate_predictions` re-seeds
identically (line 695), so `rng` is never read — the output depends
only on the table content, the dataset id and the (process-stable)
string hash.  `ts` is `datetime.now().isoformat()`. -/
noncomputable def analyzeDataset (pyHash : String → ℤ)
    (serialize : Table → String) (sample : ℕ → ℕ → ℝ) (_rng : ℕ × ℕ)
    (t : Table) (schema : Schema) (datasetId ts : String) : AnalysisResult :=
  let h := dataHash pyHash serialize t datasetId
  { datasetId := datasetId
    analysisTimestamp := ts
    error := none
    riskLevel := (assessRiskPatterns t schema).overallRiskLevel
    totalRecords := numRows t
    predictions := generatePredictions sample t schema h
    predictionsCount := (generatePredictions sample t schema h).length
    analysisHash := toString h.natAbs }

/-! ## Concrete instances used by witnesses and counterexamples -/

/-- A concrete stand-in for Python's process-stable string hash. -/
def pyHash0 : String → ℤ := fun _ => 0

/-- A concrete stand-in for `str(df.values.tobytes())`. -/
def serialize0 : Table → String := fun _ => ("")

/-- A concrete stand-in for the seeded standard-normal stream. -/
noncomputable def sample0 : ℕ → ℕ → ℝ := fun _ _ => 0

/-- C1 witness: a table with an explicit two-valued target column. -/
def tableC1 : Table := [((("risk")), [some 0, some 1])]

def colC1 : Column := [some 0, some 1]

def schemaC1 : Schema :=
  { columns := [("risk")]
    numericColumns := [("risk")]
    datetimeColumns := []
    potentialFeatures := []
    potentialTarget := some (("risk")) }

/-- C2: 100 rows, single column `risk_score`, uniformly 0.9. -/
def tableC2 : Table := [((("risk_score")), List.replicate 100 (some (9/10)))]

def schemaC2 : Schema := (detectSchema pyHash0 tableC2).2

/-- C4 counterexample: one column matching no keyword. -/
def tableC4 : Table := [((("foo")), [some 1, some 2])]

/-- C6 counterexample: 4 paired rows, hourly buckets (0,0,0) and (1);
target values 0,0,0,1 give mean 1/4 and sample std exactly 1/2, so the
high threshold is 3/4 and only the hour-1 bucket (mean 1) qualifies. -/
def timeColC6 : Column := [some 0, some 0, some 0, some nsPerHour]

def riskColC6 : Column := [some 0, some 0, some 0, some 1]

def tableC6 : Table := [((("time")), timeColC6), ((("risk")), riskColC6)]

def schemaC6 : Schema := (detectSchema pyHash0 tableC6).2

/-- C6 witness: 12 fully paired hourly rows. -/
def timeColC6w : Column := (List.range 12).map (fun i => some ((i : ℚ) * nsPerHour))

def riskColC6w : Column := List.replicate 12 (some (1 : ℚ))

def tableC6w : Table := [((("time")), timeColC6w), ((("risk")), riskColC6w)]

def schemaC6w : Schema := (detectSchema pyHash0 tableC6w).2

/-- C7 counterexample: exactly 10 paired, strictly increasing points. -/
def timeColC7 : Column :=
  [some 0, some 1, some 2, some 3, some 4, some 5, some 6, some 7, some 8, some 9]

def windColC7 : Column :=
  [some 0, some 1, some 2, some 3, some 4, some 5, some 6, some 7, some 8, some 9]

def tableC7 : Table := [((("time")), timeColC7), ((("wind_speed")), windColC7)]

/-- C7 witness: 11 paired, strictly increasing points. -/
def timeColC7w : Column :=
  [some 0, some 1, some 2, some 3, some 4, some 5, some 6, some 7,
   some 8, some 9, some 10]

def windColC7w : Column :=
  [some 0, some 1, some 2, some 3, some 4, some 5, some 6, some 7,
   some 8, some 9, some 10]

def tableC7w : Table := [((("time")), timeColC7w), ((("wind_speed")), windColC7w)]

/-- C8 counterexample: a constant, negative-valued target column. -/
def riskColC8 : Column := List.replicate 12 (some (-1 : ℚ))

def tableC8 : Table := [((("risk_score")), riskColC8)]

def schemaC8 : Schema := (detectSchema pyHash0 tableC8).2

/-- C8 witness: a constant, positive-valued target column. -/
def riskColC8w : Column := List.replicate 12 (some (2 : ℚ))

def tableC8w : Table := [((("risk_score")), riskColC8w)]

def schemaC8w : Schema := (detectSchema pyHash0 tableC8w).2

/-- C10 witness: three rows, requested feature column absent. -/
def tableC10 : Table := [((("a")), [some 1, some 2, some 3])]

/-- The C7 witness table after schema detection (a synthetic target
column is appended since `wind_speed` is a candidate feature and no
target keyword matches). -/
def tC7w : Table := (detectSchema pyHash0 tableC7w).1

def sC7w : Schema := (detectSchema pyHash0 tableC7w).2

/-! ## Helper lemmas -/

theorem dropna_replicate_some (n : ℕ) (q : ℚ) :
    dropna (List.replicate n (some q)) = List.replicate n q := by
  induction n with
  | zero => rfl
  | succ k ih =>
    simp only [dropna] at ih
    simp [dropna, List.replicate_succ, ih]

theorem sampleMean_replicate (n : ℕ) (hn : n ≠ 0) (q : ℚ) :
    sampleMean (List.replicate n q) = q := by
  unfold sampleMean
  rw [List.sum_replicate, List.length_replicate, nsmul_eq_mul,
    mul_div_cancel_left₀ _ (Nat.cast_ne_zero.mpr hn)]

theorem sampleVar_replicate (n : ℕ) (q : ℚ) :
    sampleVar (List.replicate n q) = 0 := by
  cases n with
  | zero => simp [sampleVar]
  | succ k =>
    unfold sampleVar
    rw [show (List.replicate (k + 1) q).map
          (fun x => (x - sampleMean (List.replicate (k + 1) q)) *
            (x - sampleMean (List.replicate (k + 1) q))) =
        List.replicate (k + 1)
          ((q - sampleMean (List.replicate (k + 1) q)) *
            (q - sampleMean (List.replicate (k + 1) q))) from List.map_replicate,
      sampleMean_replicate (k + 1) (Nat.succ_ne_zero k) q]
    simp

theorem countGT_replicate (th : ℝ) (n : ℕ) (q : ℚ) :
    countGT th (List.replicate n q) = if th < (q : ℝ) then n else 0 := by
  induction n with
  | zero => simp [countGT]
  | succ k ih =>
    by_cases h : th < (q : ℝ) <;>
      simp [List.replicate_succ, countGT, ih, h, Nat.add_comm]

theorem listMin_replicate (n : ℕ) (hn : n ≠ 0) (q : ℚ) :
    listMin (List.replicate n q) = q := by
  cases n with
  | zero => exact absurd rfl hn
  | succ k =>
    rw [List.replicate_succ]
    show (List.replicate k q).foldl min q = q
    induction k with
    | zero => rfl
    | succ m ih => simpa [List.replicate_succ, List.foldl_cons, min_self] using ih

theorem listMax_replicate (n : ℕ) (hn : n ≠ 0) (q : ℚ) :
    listMax (List.replicate n q) = q := by
  cases n with
  | zero => exact absurd rfl hn
  | succ k =>
    rw [List.replicate_succ]
    show (List.replicate k q).foldl max q = q
    induction k with
    | zero => rfl
    | succ m ih => simpa [List.replicate_succ, List.foldl_cons, max_self] using ih

theorem mem_keepQualifying {hi : ℝ} {l : List (ℤ × ℚ)} {kv : ℤ × ℚ}
    (h : kv ∈ keepQualifying hi l) : kv ∈ l ∧ hi < (kv.2 : ℝ) := by
  induction l with
  | nil => simp [keepQualifying] at h
  | cons a rest ih =>
    by_cases hc : hi < ((a.2 : ℚ) : ℝ)
    · rw [keepQualifying, if_pos hc] at h
      rcases List.mem_cons.mp h with rfl | hmem
      · exact ⟨List.mem_cons_self _ _, hc⟩
      · exact ⟨List.mem_cons_of_mem a (ih hmem).1, (ih hmem).2⟩
    · rw [keepQualifying, if_neg hc] at h
      exact ⟨List.mem_cons_of_mem a (ih h).1, (ih h).2⟩

theorem keepQualifying_sublist (hi : ℝ) (l : List (ℤ × ℚ)) :
    List.Sublist (keepQualifying hi l) l := by
  induction l with
  | nil => simp [keepQualifying]
  | cons a rest ih =>
    by_cases hc : hi < ((a.2 : ℚ) : ℝ)
    · rw [keepQualifying, if_pos hc]
      exact ih.cons₂ a
    · rw [keepQualifying, if_neg hc]
      exact ih.cons a

theorem lookup_filterMap_not_mem {β : Type} (cols : List String)
    (f : String → Option β) (c : String) (hc : c ∉ cols) :
    (cols.filterMap (fun x => (f x).map (fun y => (x, y)))).lookup c = none := by
  induction cols with
  | nil => rfl
  | cons a rest ih =>
    have hne : c ≠ a := fun h => hc (h ▸ List.mem_cons_self a rest)
    have hrest : c ∉ rest := fun h => hc (List.mem_cons_of_mem a h)
    have hb : (c == a) = false := by simp [hne]
    cases hfa : f a with
    | none => simpa [List.filterMap_cons, hfa] using ih hrest
    | some y =>
      simpa [List.filterMap_cons, hfa, List.lookup, hb] using ih hrest

theorem lookup_filterMap_pair {β : Type} (cols : List String)
    (f : String → Option β) (c : String) (hnd : cols.Nodup) (hc : c ∈ cols) :
    (cols.filterMap (fun x => (f x).map (fun y => (x, y)))).lookup c = f c := by
  induction cols with
  | nil => cases hc
  | cons a rest ih =>
    obtain ⟨ha, hndr⟩ := List.nodup_cons.mp hnd
    rcases List.mem_cons.mp hc with rfl | hmem
    · cases hfc : f c with
      | none =>
        simpa [List.filterMap_cons, hfc] using
          lookup_filterMap_not_mem rest f c ha
      | some y => simp [List.filterMap_cons, hfc, List.lookup]
    · have hne : c ≠ a := fun h => ha (h ▸ hmem)
      have hb : (c == a) = false := by simp [hne]
      cases hfa : f a with
      | none => simpa [List.filterMap_cons, hfa] using ih hndr hmem
      | some y =>
        simpa [List.filterMap_cons, hfa, List.lookup, hb] using ih hndr hmem

theorem schemaFold_no_kw (names : List (String × Column)) (s : Schema)
    (h1 : ∀ p ∈ names, nameContainsAny p.1 targetKeywords = false)
    (h2 : ∀ p ∈ names, nameContainsAny p.1 featureKeywords = false) :
    (names.foldl (fun acc c => schemaStep acc c.1) s).potentialTarget =
      s.potentialTarget ∧
    (names.foldl (fun acc c => schemaStep acc c.1) s).potentialFeatures =
      s.potentialFeatures := by
  induction names generalizing s with
  | nil => exact ⟨rfl, rfl⟩
  | cons a rest ih =>
    have ha1 := h1 a (List.mem_cons_self _ _)
    have ha2 := h2 a (List.mem_cons_self _ _)
    have hstep : (schemaStep s a.1).potentialTarget = s.potentialTarget ∧
        (schemaStep s a.1).potentialFeatures = s.potentialFeatures := by
      unfold schemaStep
      by_cases hdt : nameContainsAny a.1 dtKeywords <;> simp [ha1, ha2, hdt]
    obtain ⟨e1, e2⟩ := ih (schemaStep s a.1)
      (fun p hp => h1 p (List.mem_cons_of_mem _ hp))
      (fun p hp => h2 p (List.mem_cons_of_mem _ hp))
    exact ⟨by rw [List.foldl_cons, e1, hstep.1], by rw [List.foldl_cons, e2, hstep.2]⟩

/-! ## Claim theorems -/

/-- C9: for every column with fewer than 4 non-missing values, the
statistical profiler reports `has_outliers = false` (the IQR rule is
only applied from 4 values on). -/
theorem C9_few_values_no_outliers (c : Column)
    (h : (dropna c).length < 4) : hasOutliersFor c = false := by
  unfold hasOutliersFor detectOutliersIQR
  rw [if_pos h]

theorem C9_few_values_no_outliers_witness :
    (dropna ([some 1, none, some 2] : Column)).length < 4 ∧
      hasOutliersFor ([some 1, none, some 2] : Column) = false :=
  ⟨by decide, C9_few_values_no_outliers _ (by decide)⟩

/-- C10: whenever any internal step of `detect_anomalies` fails (a
missing feature column, or the sklearn call raising), the function
returns the all-false vector of length `len(df)` instead of
propagating the exception, so a failure is indistinguishable from an
anomaly-free input. -/
theorem C10_failure_returns_all_false
    (fitPredict : List Column → Except String (List Bool)) (t : Table)
    (features : List String) (e : String)
    (h : anomalyPipeline fitPredict t features = Except.error e) :
    detectAnomalies fitPredict t features =
      List.replicate (numRows t) false := by
  unfold detectAnomalies
  rw [h]

theorem C10_failure_returns_all_false_witness :
    anomalyPipeline (fun _ => Except.ok ([] : List Bool)) tableC10 [(("b"))] =
      Except.error (("KeyError: b")) ∧
    detectAnomalies (fun _ => Except.ok ([] : List Bool)) tableC10 [(("b"))] =
      List.replicate (numRows tableC10) false :=
  ⟨rfl,
   C10_failure_returns_all_false _ tableC10 [(("b"))] (("KeyError: b")) rfl⟩

/-- C3: `analyze_dataset` re-seeds the global generator from the
content hash before drawing, so two runs on the same table and dataset
id — whatever the ambient generator state and wall-clock timestamps —
return byte-identical `predictions` and `analysis_hash`. -/
theorem C3_reproducible_predictions_and_hash
    (pyHash : String → ℤ) (serialize : Table → String)
    (sample : ℕ → ℕ → ℝ) (t : Table) (schema : Schema)
    (datasetId : String) (rng₁ rng₂ : ℕ × ℕ) (ts₁ ts₂ : String) :
    (analyzeDataset pyHash serialize sample rng₁ t schema datasetId ts₁).predictions =
      (analyzeDataset pyHash serialize sample rng₂ t schema datasetId ts₂).predictions ∧
    (analyzeDataset pyHash serialize sample rng₁ t schema datasetId ts₁).analysisHash =
      (analyzeDataset pyHash serialize sample rng₂ t schema datasetId ts₂).analysisHash :=
  ⟨rfl, rfl⟩

/-- C5 counterexample: on the empty table, `analyze_dataset` does NOT
return an error result — the body raises nothing (every sub-analysis
takes its degraded branch) and the assembled result has `error = none`,
refuting the claim that the result contains an error field. -/
theorem C5_empty_table_no_error_field :
    (analyzeDataset pyHash0 serialize0 sample0 (0, 0) ([] : Table)
        (detectSchema pyHash0 ([] : Table)).2 (("d1")) (("t1"))).error = none :=
  rfl

/-- C5 amended: on the empty table, `analyze_dataset` raises no
exception and returns a complete degraded result — with a timestamp,
`error` absent (`none`), risk level LOW and the minimum of 6 fallback
predictions — rather than a minimal error object. -/
theorem C5_empty_table_degraded_result (pyHash : String → ℤ)
    (serialize : Table → String) (sample : ℕ → ℕ → ℝ) (rng : ℕ × ℕ)
    (datasetId ts : String) :
    (analyzeDataset pyHash serialize sample rng ([] : Table)
        (detectSchema pyHash ([] : Table)).2 datasetId ts).error = none ∧
    (analyzeDataset pyHash serialize sample rng ([] : Table)
        (detectSchema pyHash ([] : Table)).2 datasetId ts).analysisTimestamp = ts ∧
    (analyzeDataset pyHash serialize sample rng ([] : Table)
        (detectSchema pyHash ([] : Table)).2 datasetId ts).riskLevel =
      RiskLevel.LOW ∧
    (analyzeDataset pyHash serialize sample rng ([] : Table)
        (detectSchema pyHash ([] : Table)).2 datasetId ts).predictions.length = 6 := by
  refine ⟨rfl, rfl, rfl, ?_⟩
  simp [analyzeDataset, generatePredictions, numRows]

/-- C4 counterexample: on a table with no keyword-matching column,
`detect_schema` names `synthetic_risk_score` as the target but adds NO
column to the table — there is no all-zero synthetic target column. -/
theorem C4_no_features_no_synthetic_column :
    lookupCol (detectSchema pyHash0 tableC4).1 (("synthetic_risk_score")) = none ∧
    (detectSchema pyHash0 tableC4).2.potentialTarget =
      some (("synthetic_risk_score")) := by
  constructor <;> decide

/-- C4 amended: on any table with no target-keyword and no
feature-keyword column, `detect_schema` succeeds, sets the target name
to `synthetic_risk_score`, finds no candidate features, and leaves the
table unchanged — in particular no synthetic column is materialised. -/
theorem C4_no_features_schema_unchanged (pyHash : String → ℤ) (t : Table)
    (htgt : ∀ p ∈ t, nameContainsAny p.1 targetKeywords = false)
    (hfeat : ∀ p ∈ t, nameContainsAny p.1 featureKeywords = false) :
    (detectSchema pyHash t).1 = t ∧
    (detectSchema pyHash t).2.potentialTarget =
      some (("synthetic_risk_score")) ∧
    (detectSchema pyHash t).2.potentialFeatures = [] ∧
    lookupCol (detectSchema pyHash t).1 (("synthetic_risk_score")) = none := by
  obtain ⟨e1, e2⟩ := schemaFold_no_kw t
    { columns := t.map (·.1)
      numericColumns := []
      datetimeColumns := []
      potentialFeatures := []
      potentialTarget := none } htgt hfeat
  have e1' : (t.foldl (fun acc c => schemaStep acc c.1)
      { columns := t.map (·.1)
        numericColumns := []
        datetimeColumns := []
        potentialFeatures := []
        potentialTarget := none }).potentialTarget = (none : Option String) := e1
  have e2' : (t.foldl (fun acc c => schemaStep acc c.1)
      { columns := t.map (·.1)
        numericColumns := []
        datetimeColumns := []
        potentialFeatures := []
        potentialTarget := none }).potentialFeatures = ([] : List String) := e2
  have hlook : lookupCol t (("synthetic_risk_score")) = none := by
    unfold lookupCol
    rw [List.find?_eq_none.mpr ?_]
    · rfl
    · intro p hp
      have h := htgt p hp
      simp only [beq_iff_eq]
      intro heq
      rw [heq] at h
      exact absurd h (by decide)
  simp only [detectSchema, e1', e2', List.isEmpty_nil, if_true]
  exact ⟨trivial, trivial, trivial, hlook⟩

/-- C1: for a target column with σ defined (at least two non-missing
values; for a single value the sample std is NaN and the source
degenerates the thresholds to (0, 1, 1)), the derived thresholds are
exactly `max(0, μ−σ)`, `min(1, μ+σ)`, `min(1, μ+2σ)` and the overall
risk level follows the first-match CRITICAL/HIGH/MEDIUM/LOW policy of
the claim. -/
theorem C1_dynamic_thresholds_first_match (t : Table) (schema : Schema)
    (tc : String) (col : Column)
    (h1 : schema.potentialTarget = some tc)
    (h2 : lookupCol t tc = some col)
    (h3 : 2 ≤ (dropna col).length) :
    riskThresholds (dropna col) =
      (max 0 (((sampleMean (dropna col) : ℚ) : ℝ) -
          Real.sqrt ((sampleVar (dropna col) : ℚ) : ℝ)),
       min 1 (((sampleMean (dropna col) : ℚ) : ℝ) +
          Real.sqrt ((sampleVar (dropna col) : ℚ) : ℝ)),
       min 1 (((sampleMean (dropna col) : ℚ) : ℝ) +
          2 * Real.sqrt ((sampleVar (dropna col) : ℚ) : ℝ))) ∧
    (assessRiskPatterns t schema).overallRiskLevel =
      specOverallRiskLevel (dropna col) ((sampleMean (dropna col) : ℚ) : ℝ)
        (Real.sqrt ((sampleVar (dropna col) : ℚ) : ℝ)) := by
  have hthr : riskThresholds (dropna col) =
      (max 0 (((sampleMean (dropna col) : ℚ) : ℝ) -
          Real.sqrt ((sampleVar (dropna col) : ℚ) : ℝ)),
       min 1 (((sampleMean (dropna col) : ℚ) : ℝ) +
          Real.sqrt ((sampleVar (dropna col) : ℚ) : ℝ)),
       min 1 (((sampleMean (dropna col) : ℚ) : ℝ) +
          2 * Real.sqrt ((sampleVar (dropna col) : ℚ) : ℝ))) := by
    unfold riskThresholds pandasStd
    rw [if_pos h3]
  have hne : (dropna col).isEmpty = false := by
    cases hd : dropna col with
    | nil => rw [hd] at h3; simp at h3
    | cons a l => rfl
  refine ⟨hthr, ?_⟩
  unfold assessRiskPatterns
  simp only [h1, h2, hne, Bool.false_eq_true, if_false]
  rw [hthr]
  rfl

theorem C1_dynamic_thresholds_first_match_witness :
    schemaC1.potentialTarget = some (("risk")) ∧
    lookupCol tableC1 (("risk")) = some colC1 ∧
    2 ≤ (dropna colC1).length ∧
    (riskThresholds (dropna colC1) =
      (max 0 (((sampleMean (dropna colC1) : ℚ) : ℝ) -
          Real.sqrt ((sampleVar (dropna colC1) : ℚ) : ℝ)),
       min 1 (((sampleMean (dropna colC1) : ℚ) : ℝ) +
          Real.sqrt ((sampleVar (dropna colC1) : ℚ) : ℝ)),
       min 1 (((sampleMean (dropna colC1) : ℚ) : ℝ) +
          2 * Real.sqrt ((sampleVar (dropna colC1) : ℚ) : ℝ))) ∧
    (assessRiskPatterns tableC1 schemaC1).overallRiskLevel =
      specOverallRiskLevel (dropna colC1) ((sampleMean (dropna colC1) : ℚ) : ℝ)
        (Real.sqrt ((sampleVar (dropna colC1) : ℚ) : ℝ))) :=
  ⟨rfl, by decide, by decide,
   C1_dynamic_thresholds_first_match tableC1 schemaC1 (("risk")) colC1
     rfl (by decide) (by decide)⟩

/-- The 100-row constant-0.9 table analyses to overall risk level LOW:
with σ = 0 all three thresholds collapse to 0.9, no record strictly
exceeds any of them, both percentages are 0 and the first-match policy
lands on LOW. -/
theorem assess_tableC2_low :
    (assessRiskPatterns tableC2 schemaC2).overallRiskLevel = RiskLevel.LOW := by
  have h1 : schemaC2.potentialTarget = some (("risk_score")) := by decide
  have h2 : lookupCol tableC2 (("risk_score")) =
      some (List.replicate 100 (some (9/10 : ℚ))) := rfl
  have hd : dropna (List.replicate 100 (some (9/10 : ℚ))) =
      List.replicate 100 (9/10 : ℚ) := dropna_replicate_some 100 (9/10)
  have hmean : sampleMean (List.replicate 100 (9/10 : ℚ)) = 9/10 :=
    sampleMean_replicate 100 (by norm_num) _
  have hvar : sampleVar (List.replicate 100 (9/10 : ℚ)) = 0 :=
    sampleVar_replicate 100 _
  have hthr : riskThresholds (List.replicate 100 (9/10 : ℚ)) =
      ((9/10 : ℝ), (9/10 : ℝ), (9/10 : ℝ)) := by
    unfold riskThresholds pandasStd
    rw [if_pos (by simp : 2 ≤ (List.replicate 100 (9/10 : ℚ)).length)]
    simp only [hmean, hvar]
    push_cast
    norm_num [Real.sqrt_zero]
  unfold assessRiskPatterns
  simp only [h1, h2, hd]
  have hne : (List.replicate 100 (9/10 : ℚ)).isEmpty = false := rfl
  simp only [hne, Bool.false_eq_true, if_false]
  rw [hthr]
  unfold overallLevelOf
  simp only [countGT_replicate]
  norm_num

/-- C2 counterexample: on the 100-row uniform-0.9 `risk_score` table,
`analyze` does NOT return CRITICAL — the constant column makes σ = 0,
the critical threshold equals the data value 0.9 and no record
strictly exceeds it. -/
theorem C2_constant_table_not_critical :
    (analyzeDataset pyHash0 serialize0 sample0 (0, 0) tableC2 schemaC2
        (("d1")) (("t1"))).riskLevel ≠ RiskLevel.CRITICAL := by
  have hl : (analyzeDataset pyHash0 serialize0 sample0 (0, 0) tableC2 schemaC2
      (("d1")) (("t1"))).riskLevel = RiskLevel.LOW := assess_tableC2_low
  rw [hl]
  decide

/-- C2 amended: for the 100-row table with a single `risk_score` column
uniformly 0.9 (no timestamp or geographic columns), `analyze` returns
`overall_risk_level = LOW`: the thresholds collapse onto the constant
value and no record strictly exceeds them. -/
theorem C2_constant_table_low (pyHash : String → ℤ)
    (serialize : Table → String) (sample : ℕ → ℕ → ℝ) (rng : ℕ × ℕ)
    (datasetId ts : String) :
    (analyzeDataset pyHash serialize sample rng tableC2 schemaC2
        datasetId ts).riskLevel = RiskLevel.LOW :=
  assess_tableC2_low

theorem C4_no_features_schema_unchanged_witness :
    (∀ p ∈ tableC4, nameContainsAny p.1 targetKeywords = false) ∧
    (∀ p ∈ tableC4, nameContainsAny p.1 featureKeywords = false) ∧
    ((detectSchema pyHash0 tableC4).1 = tableC4 ∧
      (detectSchema pyHash0 tableC4).2.potentialTarget =
        some (("synthetic_risk_score")) ∧
      (detectSchema pyHash0 tableC4).2.potentialFeatures = [] ∧
      lookupCol (detectSchema pyHash0 tableC4).1 (("synthetic_risk_score")) = none) :=
  ⟨by decide, by decide,
   C4_no_features_schema_unchanged pyHash0 tableC4 (by decide) (by decide)⟩

/-- C7 counterexample: a column with exactly 10 paired, strictly
increasing (time, value) points.  The claim (slope fitted and
classified from 10 points on) predicts a recorded normalized slope of
1 and an `increasing` classification, but the source requires strictly
more than 10 points (line 565) and records nothing. -/
theorem C7_ten_points_no_trend :
    (pairedPoints timeColC7 windColC7).length = 10 ∧
    specColTrend timeColC7 windColC7 = some (1, 1) ∧
    (analyzeTrends (detectSchema pyHash0 tableC7).1
        (detectSchema pyHash0 tableC7).2).trendStrength = [] ∧
    (analyzeTrends (detectSchema pyHash0 tableC7).1
        (detectSchema pyHash0 tableC7).2).increasingMetrics = [] := by
  refine ⟨by decide, ?_, by decide, by decide⟩
  norm_num [specColTrend, pairedPoints, timeColC7, windColC7, listMin, listMax,
    List.filterMap_cons, List.sum_cons, min_def, max_def]

/-- C7 amended: with a detected datetime column, a numeric column gets
a recorded (slope, normalized slope) trend entry exactly when it has
STRICTLY MORE than 10 paired points (≥ 11, not ≥ 10 as claimed), a
nondegenerate least-squares denominator and strictly positive value
and time ranges; it is then classified increasing exactly when the
normalized slope exceeds 0.1 and decreasing exactly when it is below
−0.1. -/
theorem C7_trend_classification_gt10 (t : Table) (schema : Schema)
    (dtName : String) (tcol : Column) (c : String) (col : Column)
    (slope ns : ℚ)
    (hdt : schema.datetimeColumns.find? (fun d => (lookupCol t d).isSome) =
      some dtName)
    (htcol : lookupCol t dtName = some tcol)
    (hc : c ∈ schema.numericColumns)
    (hcol : lookupCol t c = some col)
    (hnd : (schema.numericColumns.filter (fun x => (lookupCol t x).isSome)).Nodup)
    (htr : colTrend tcol col = some (slope, ns)) :
    (analyzeTrends t schema).trendStrength.lookup c = some (slope, ns) ∧
    ((analyzeTrends t schema).increasingMetrics.lookup c =
      if 1/10 < ns then some ns else none) ∧
    ((analyzeTrends t schema).decreasingMetrics.lookup c =
      if ns < -(1/10) then some |ns| else none) := by
  have hmem : c ∈ schema.numericColumns.filter (fun x => (lookupCol t x).isSome) :=
    List.mem_filter.mpr ⟨hc, by rw [hcol]; rfl⟩
  unfold analyzeTrends
  simp only [hdt, htcol]
  refine ⟨?_, ?_, ?_⟩
  · rw [lookup_filterMap_pair _ _ _ hnd hmem]
    simp [hcol, htr]
  · rw [lookup_filterMap_pair _ _ _ hnd hmem]
    simp [hcol, htr]
  · rw [lookup_filterMap_pair _ _ _ hnd hmem]
    simp [hcol, htr]

/-- Evaluation of the per-column trend on the 11-point witness. -/
theorem colTrend_C7w : colTrend timeColC7w windColC7w = some (1, 1) := by
  norm_num [colTrend, pairedPoints, timeColC7w, windColC7w, listMin, listMax,
    List.filterMap_cons, List.sum_cons, min_def, max_def]

theorem C7_trend_classification_gt10_witness :
    sC7w.datetimeColumns.find? (fun d => (lookupCol tC7w d).isSome) =
      some (("time")) ∧
    lookupCol tC7w (("time")) = some timeColC7w ∧
    (("wind_speed")) ∈ sC7w.numericColumns ∧
    lookupCol tC7w (("wind_speed")) = some windColC7w ∧
    (sC7w.numericColumns.filter (fun x => (lookupCol tC7w x).isSome)).Nodup ∧
    colTrend timeColC7w windColC7w = some (1, 1) ∧
    ((analyzeTrends tC7w sC7w).trendStrength.lookup (("wind_speed")) =
        some (1, 1) ∧
      ((analyzeTrends tC7w sC7w).increasingMetrics.lookup (("wind_speed")) =
        if (1 : ℚ)/10 < 1 then some 1 else none) ∧
      ((analyzeTrends tC7w sC7w).decreasingMetrics.lookup (("wind_speed")) =
        if (1 : ℚ) < -(1/10) then some |(1 : ℚ)| else none)) :=
  ⟨by decide, by decide, by decide, by decide, by decide, colTrend_C7w,
   C7_trend_classification_gt10 tC7w sC7w (("time")) timeColC7w
     (("wind_speed")) windColC7w 1 1 (by decide) (by decide) (by decide)
     (by decide) (by decide) colTrend_C7w⟩

/-- C8 counterexample: on a constant target column of value −1 the
clamp to the target's [min, max] forces every predicted value to −1, so
the uncertainty band is inverted:
`lower = 0.85·(−1) = −0.85 > −1 = predicted_value` — the predicted
value does NOT lie between the bounds. -/
theorem C8_negative_prediction_outside_band :
    ∃ p ∈ generatePredictions sample0 tableC8 schemaC8 0,
      p.predictedValue < p.uncertaintyLower := by
  have hdrop : dropna riskColC8 = List.replicate 12 (-1 : ℚ) :=
    dropna_replicate_some 12 (-1)
  have hmean : sampleMean (List.replicate 12 (-1 : ℚ)) = -1 :=
    sampleMean_replicate 12 (by norm_num) _
  have hvar : sampleVar (List.replicate 12 (-1 : ℚ)) = 0 :=
    sampleVar_replicate 12 _
  have hstd : colStd riskColC8 = 0 := by
    unfold colStd
    rw [hdrop, hvar]
    simp
  have hstats : colStats riskColC8 =
      { n := 12, mean := -1, tmin := -1, tmax := -1 } := by
    unfold colStats
    rw [hdrop, hmean, listMin_replicate 12 (by norm_num),
      listMax_replicate 12 (by norm_num)]
    simp
  have htc : targetColumn tableC8 schemaC8 = some riskColC8 := by decide
  have hn : numRows tableC8 = 12 := by decide
  unfold generatePredictions
  refine ⟨_, List.mem_map.mpr ⟨0, ?_, rfl⟩, ?_⟩
  · rw [hn]
    decide
  · simp only [htc, hstats, hstd, sample0]
    push_cast
    norm_num

/-- C8 amended: every prediction carries
`lower = 0.85 × predicted_value` and `upper = 1.15 × predicted_value`
and names at most 5 feature columns; the predicted value lies between
the bounds whenever it is nonnegative (a negative target range inverts
the band, as the counterexample shows).  The hypothesis excludes the
corner of a target column in `base_stats` with zero non-missing
values, where the source produces NaN statistics this rational model
cannot represent. -/
theorem C8_uncertainty_band (sample : ℕ → ℕ → ℝ) (t : Table)
    (schema : Schema) (h : ℤ)
    (_htgt : ∀ col, targetColumn t schema = some col → ¬ (dropna col).isEmpty) :
    ∀ p ∈ generatePredictions sample t schema h,
      p.uncertaintyLower = 0.85 * p.predictedValue ∧
      p.uncertaintyUpper = 1.15 * p.predictedValue ∧
      p.factorsConsidered.length ≤ 5 ∧
      (0 ≤ p.predictedValue →
        p.uncertaintyLower ≤ p.predictedValue ∧
        p.predictedValue ≤ p.uncertaintyUpper) := by
  intro p hp
  unfold generatePredictions at hp
  obtain ⟨i, hi, rfl⟩ := List.mem_map.mp hp
  refine ⟨mul_comm _ _, mul_comm _ _, ?_, ?_⟩
  · simp only [List.length_take]
    exact min_le_left 5 (presentNumericCols t schema).length
  · intro hv
    constructor <;> nlinarith [hv]

theorem C8_uncertainty_band_witness :
    (∀ col, targetColumn tableC8w schemaC8w = some col →
      ¬ (dropna col).isEmpty) ∧
    (∀ p ∈ generatePredictions sample0 tableC8w schemaC8w 0,
      p.uncertaintyLower = 0.85 * p.predictedValue ∧
      p.uncertaintyUpper = 1.15 * p.predictedValue ∧
      p.factorsConsidered.length ≤ 5 ∧
      (0 ≤ p.predictedValue →
        p.uncertaintyLower ≤ p.predictedValue ∧
        p.predictedValue ≤ p.uncertaintyUpper)) :=
  ⟨by intro col hcol; rw [show targetColumn tableC8w schemaC8w =
      some riskColC8w from by decide] at hcol; cases hcol; decide,
   C8_uncertainty_band sample0 tableC8w schemaC8w 0
     (by intro col hcol; rw [show targetColumn tableC8w schemaC8w =
        some riskColC8w from by decide] at hcol; cases hcol; decide)⟩

/-- C6 amended: with a timestamp column, a usable target column and
STRICTLY MORE than 10 rows carrying both values, the reported temporal
risk windows are the qualifying buckets (mean above the high
threshold) in CHRONOLOGICAL bucket-key order truncated to the first 5
(`head(5)` of the key-sorted groupby) — not the 5 highest.  Every
reported window's mean exceeds the high threshold, at most 5 are
reported, and they are sorted by bucket key. -/
theorem C6_temporal_windows_chronological (t : Table) (schema : Schema)
    (tc : String) (col : Column) (dtName : String) (tcol : Column)
    (h1 : schema.potentialTarget = some tc)
    (h2 : lookupCol t tc = some col)
    (h3 : (dropna col).isEmpty = false)
    (h4 : schema.datetimeColumns.head? = some dtName)
    (h5 : lookupCol t dtName = some tcol)
    (h6 : (dropna tcol).isEmpty = false)
    (h7 : 10 < (pairedPoints tcol col).length) :
    (assessRiskPatterns t schema).temporalRisks =
      specChronoWindows tcol col (riskThresholds (dropna col)).2.1 ∧
    (∀ w ∈ (assessRiskPatterns t schema).temporalRisks,
      (riskThresholds (dropna col)).2.1 < (w.2 : ℝ)) ∧
    (assessRiskPatterns t schema).temporalRisks.length ≤ 5 ∧
    List.Pairwise (fun a b : ℤ × ℚ => a.1 ≤ b.1)
      (assessRiskPatterns t schema).temporalRisks := by
  have hw : (assessRiskPatterns t schema).temporalRisks =
      (keepQualifying (riskThresholds (dropna col)).2.1
        (bucketMeans tcol col)).take 5 := by
    unfold assessRiskPatterns
    simp only [h1, h2, h3, Bool.false_eq_true, if_false]
    unfold temporalFor
    simp only [h4, h5, h6, Bool.false_eq_true, if_false, if_pos h7]
  have hsorted : List.Pairwise (fun a b : ℤ × ℚ => a.1 ≤ b.1)
      (bucketMeans tcol col) := by
    unfold bucketMeans
    rw [List.pairwise_map]
    exact List.Pairwise.imp (fun h => h)
      (List.sorted_insertionSort (α := ℤ) (· ≤ ·) _)
  refine ⟨hw, ?_, ?_, ?_⟩
  · intro w hwmem
    rw [hw] at hwmem
    exact (mem_keepQualifying (List.take_subset _ _ hwmem)).2
  · rw [hw]
    simp only [List.length_take]
    exact min_le_left _ _
  · rw [hw]
    exact hsorted.sublist
      ((List.take_sublist _ _).trans (keepQualifying_sublist _ _))

theorem C6_temporal_windows_chronological_witness :
    schemaC6w.potentialTarget = some (("risk")) ∧
    lookupCol tableC6w (("risk")) = some riskColC6w ∧
    (dropna riskColC6w).isEmpty = false ∧
    schemaC6w.datetimeColumns.head? = some (("time")) ∧
    lookupCol tableC6w (("time")) = some timeColC6w ∧
    (dropna timeColC6w).isEmpty = false ∧
    10 < (pairedPoints timeColC6w riskColC6w).length ∧
    ((assessRiskPatterns tableC6w schemaC6w).temporalRisks =
        specChronoWindows timeColC6w riskColC6w
          (riskThresholds (dropna riskColC6w)).2.1 ∧
      (∀ w ∈ (assessRiskPatterns tableC6w schemaC6w).temporalRisks,
        (riskThresholds (dropna riskColC6w)).2.1 < (w.2 : ℝ)) ∧
      (assessRiskPatterns tableC6w schemaC6w).temporalRisks.length ≤ 5 ∧
      List.Pairwise (fun a b : ℤ × ℚ => a.1 ≤ b.1)
        (assessRiskPatterns tableC6w schemaC6w).temporalRisks) :=
  ⟨by decide, rfl, by decide, by decide, rfl, by decide, by decide,
   C6_temporal_windows_chronological tableC6w schemaC6w (("risk"))
     riskColC6w (("time")) timeColC6w (by decide) rfl (by decide)
     (by decide) rfl (by decide) (by decide)⟩

/-- The bucket means of the C6 counterexample table: hour-0 bucket
(three rows, mean 0) and hour-1 bucket (one row, mean 1). -/
theorem bucketMeans_C6 : bucketMeans timeColC6 riskColC6 = [(0, 0), (1, 1)] := by
  have hdt : dropna timeColC6 = [0, 0, 0, nsPerHour] := rfl
  have hmax : listMax [0, 0, 0, nsPerHour] = nsPerHour := by
    show List.foldl max 0 [0, 0, nsPerHour] = nsPerHour
    norm_num [nsPerHour, max_def]
  have hmin : listMin [0, 0, 0, nsPerHour] = 0 := by
    show List.foldl min 0 [0, 0, nsPerHour] = 0
    norm_num [nsPerHour, min_def]
  have hspan : spanDays (dropna timeColC6) = 0 := by
    unfold spanDays
    rw [hdt, hmax, hmin,
      show (nsPerHour - 0) / nsPerDay = (1/24 : ℚ) by
        norm_num [nsPerHour, nsPerDay]]
    rw [Int.floor_eq_zero_iff]
    simp only [Set.mem_Ico]
    norm_num
  have hpairs : pairedPoints timeColC6 riskColC6 =
      [(0, 0), (0, 0), (0, 0), (nsPerHour, 1)] := rfl
  have hf0 : (⌊(0 : ℚ) / nsPerHour⌋ : ℤ) = 0 := by norm_num
  have hf1 : (⌊nsPerHour / nsPerHour⌋ : ℤ) = 1 := by
    rw [div_self (by norm_num [nsPerHour] : nsPerHour ≠ 0)]
    exact Int.floor_one
  unfold bucketMeans
  rw [hspan, if_neg (by norm_num : ¬ ((7 : ℤ) < 0)), hpairs]
  simp only [List.map_cons, List.map_nil, hf0, hf1]
  rw [show List.insertionSort (· ≤ ·) (List.dedup [(0 : ℤ), 0, 0, 1]) = [0, 1]
    from by decide]
  simp only [List.map_cons, List.map_nil, List.filterMap_cons,
    List.filterMap_nil, hf0, hf1]
  norm_num [sampleMean, List.sum_cons]

/-- C6 counterexample: 4 paired rows whose hour-1 bucket mean (1)
exceeds the high threshold (3/4).  The claim (windows = qualifying
buckets, highest first, capped at 5, for every table with timestamp
and target) predicts the window [(1, 1)]; the source requires strictly
more than 10 paired rows and reports none. -/
theorem C6_small_table_windows_mismatch :
    (assessRiskPatterns tableC6 schemaC6).temporalRisks = [] ∧
    specTemporalWindowsDesc tableC6 schemaC6 = [(1, 1)] := by
  have h1 : schemaC6.potentialTarget = some (("risk")) := by decide
  have h2 : lookupCol tableC6 (("risk")) = some riskColC6 := rfl
  have h3 : (dropna riskColC6).isEmpty = false := by decide
  have h4 : schemaC6.datetimeColumns.head? = some (("time")) := by decide
  have h5 : lookupCol tableC6 (("time")) = some timeColC6 := rfl
  have h6 : (dropna timeColC6).isEmpty = false := by decide
  have h7 : ¬ (10 < (pairedPoints timeColC6 riskColC6).length) := by decide
  constructor
  · unfold assessRiskPatterns
    simp only [h1, h2, h3, Bool.false_eq_true, if_false]
    unfold temporalFor
    simp only [h4, h5, h6, Bool.false_eq_true, if_false, if_neg h7]
  · have hdata : dropna riskColC6 = [0, 0, 0, 1] := rfl
    have hmean : sampleMean ([0, 0, 0, 1] : List ℚ) = 1/4 := by
      norm_num [sampleMean, List.sum_cons]
    have hvar : sampleVar ([0, 0, 0, 1] : List ℚ) = 1/4 := by
      norm_num [sampleVar, sampleMean, List.sum_cons]
    have hsqrt : Real.sqrt ((((1 : ℚ)/4 : ℚ) : ℝ)) = 1/2 := by
      rw [show (((1 : ℚ)/4 : ℚ) : ℝ) = (1/2 : ℝ) ^ 2 by norm_num,
        Real.sqrt_sq (by norm_num : (0 : ℝ) ≤ 1/2)]
    have hbind : schemaC6.datetimeColumns.head?.bind (lookupCol tableC6) =
        some timeColC6 := rfl
    unfold specTemporalWindowsDesc
    simp only [h1, h2, hbind, hdata, hmean, hvar]
    rw [hsqrt]
    have hhi : min 1 ((((1 : ℚ)/4 : ℚ) : ℝ) + 1/2) = (3/4 : ℝ) := by
      norm_num
    rw [hhi, bucketMeans_C6]
    rw [keepQualifying, if_neg (by norm_num), keepQualifying,
      if_pos (by norm_num), keepQualifying]
    simp [List.insertionSort, List.orderedInsert]

end MLService
